import Mathlib

/-!
Shallow embedding of the tiered git-status compactor in
`amplifier_module_hooks_status_context/__init__.py`: the pattern
matcher `_matches_tier`, the classifier `_classify_status_line`, and
the report builder `_gather_git_status`, followed by theorems checking
the natural-language specification against it.  Python string
primitives are modelled over the character-list view of `String`.
-/

/-- Characters removed by Python `str.strip()` (the ASCII whitespace
characters; the further unicode whitespace code points stripped by
Python do not occur in git status output and are not modelled). -/
def isPySpace (c : Char) : Bool :=
  c == ' ' || c == '\t' || c == '\n' || c == '\r' || c == '\x0b' || c == '\x0c'

/-- Python `s.strip()`: remove leading and trailing whitespace. -/
def pyStrip (s : String) : String :=
  ⟨((s.data.dropWhile isPySpace).reverse.dropWhile isPySpace).reverse⟩

/-- Python `s[:n]` for a non-negative `n`. -/
def pyTake (s : String) (n : Nat) : String := ⟨s.data.take n⟩

/-- Python `s[n:]` for a non-negative `n`. -/
def pyDropFrom (s : String) (n : Nat) : String := ⟨s.data.drop n⟩

/-- Python `s[:-n]`: all but the last `n` characters. -/
def pyDropRight (s : String) (n : Nat) : String :=
  ⟨s.data.take (s.data.length - n)⟩

/-- Python `len(s)`. -/
def pyLen (s : String) : Nat := s.data.length

/-- Python `s.startswith(p)`. -/
def pyStartsWith (s p : String) : Bool := p.data.isPrefixOf s.data

/-- Python `s.endswith(p)`. -/
def pyEndsWith (s p : String) : Bool := p.data.isSuffixOf s.data

/-- Membership of a character in a glob character-class body, with
`a-b` ranges as in the regular expression Python fnmatch builds. -/
def inCharClass (c : Char) : List Char → Bool
  | a :: '-' :: b :: rest => (a ≤ c && c ≤ b) || inCharClass c rest
  | a :: rest => (a == c) || inCharClass c rest
  | [] => false

/-- Split a glob character-class body at its closing bracket,
returning the body and the remaining pattern, or `none` when no
bracket closes it. -/
def splitClass : List Char → Option (List Char × List Char)
  | [] => none
  | ']' :: rest => some ([], rest)
  | c :: rest =>
    match splitClass rest with
    | none => none
    | some (content, r) => some (c :: content, r)

/-- Fuel-indexed glob matcher with Python `fnmatch` semantics over the
whole string: `*` matches any sequence, `?` exactly one character,
`[...]` a character class with optional leading `!` negation and a
literal leading `]`, and an unclosed `[` is a literal character.  The
fuel argument only serves termination; `fnmatch` below supplies enough
fuel for every reachable call, so the `0` branch is never taken. -/
def globMatch : Nat → List Char → List Char → Bool
  | 0, _, _ => false
  | _ + 1, [], s => s.isEmpty
  | fuel + 1, '*' :: ps, s =>
    globMatch fuel ps s ||
      (match s with
       | [] => false
       | _ :: cs => globMatch fuel ('*' :: ps) cs)
  | fuel + 1, '?' :: ps, s =>
    (match s with
     | [] => false
     | _ :: cs => globMatch fuel ps cs)
  | fuel + 1, '[' :: ps, s =>
    (match (match ps with
            | '!' :: t => (true, t)
            | _ => (false, ps)) with
     | (neg, body) =>
       match (match body with
              | ']' :: t =>
                (match splitClass t with
                 | some (content, rest) => some (']' :: content, rest)
                 | none => none)
              | _ => splitClass body) with
       | some (content, rest) =>
         (match s with
          | [] => false
          | c :: cs => (inCharClass c content != neg) && globMatch fuel rest cs)
       | none =>
         (match s with
          | [] => false
          | c :: cs => (c == '[') && globMatch fuel ps cs))
  | fuel + 1, p :: ps, s =>
    (match s with
     | [] => false
     | c :: cs => (c == p) && globMatch fuel ps cs)

/-- Python `fnmatch.fnmatch(name, pat)` on a POSIX platform
(case-sensitive, match against the full string). -/
def fnmatch (name pat : String) : Bool :=
  globMatch (pat.data.length + name.data.length + 1) pat.data name.data

/-- Source constant `DEFAULT_TIER1_PATTERNS` (always ignore). -/
def DEFAULT_TIER1_PATTERNS : List String :=
  ["node_modules/**", ".npm/**", ".yarn/**", ".pnpm-store/**", ".venv/**",
   "venv/**", "env/**", "ENV/**", "__pycache__/**", "*.pyc", "*.pyo",
   ".pytest_cache/**", ".mypy_cache/**", ".ruff_cache/**", "build/**",
   "dist/**", "out/**", "target/**", "bin/**", "obj/**", ".git/**"]

/-- Source constant `DEFAULT_TIER2_PATTERNS` (limit with context). -/
def DEFAULT_TIER2_PATTERNS : List String :=
  ["*.lock", "*.sum", "yarn.lock", "package-lock.json", "Gemfile.lock",
   ".idea/**", ".vscode/**", "*.swp", "*.swo", "*.log", "logs/**",
   "coverage/**", ".coverage", "*.min.js", "*.min.css", "*.map"]

/-- The configuration attributes of `StatusContextHook` that the
status compactor reads.  The limits are naturals: the spec declares
negative limits undefined behaviour the caller must not supply, so the
embedding takes the non-negative domain. -/
structure Config where
  git_status_enable_path_filtering : Bool
  tier1_patterns : List String
  tier2_patterns : List String
  git_status_max_tracked : Nat
  git_status_include_untracked : Bool
  git_status_max_untracked : Nat
  git_status_tier2_limit : Nat
  git_status_max_lines : Nat
  git_status_show_filter_summary : Bool

/-- The configuration installed by `mount` when no overrides are
given: path filtering on, the default pattern lists, limits 50/20/10,
hard ceiling 100, summaries on. -/
def defaultConfig : Config where
  git_status_enable_path_filtering := true
  tier1_patterns := DEFAULT_TIER1_PATTERNS
  tier2_patterns := DEFAULT_TIER2_PATTERNS
  git_status_max_tracked := 50
  git_status_include_untracked := true
  git_status_max_untracked := 20
  git_status_tier2_limit := 10
  git_status_max_lines := 100
  git_status_show_filter_summary := true

/-- One iteration of the loop in `_matches_tier`: a pattern ending in
`/**` is a raw string-prefix test on the part before `/**` (Python
`filepath.startswith(pattern[:-3])`); any other pattern goes through
shell-glob matching. -/
def matchesPattern (filepath pat : String) : Bool :=
  if pyEndsWith pat "/**" then pyStartsWith filepath (pyDropRight pat 3)
  else fnmatch filepath pat

/-- Source `_matches_tier`: true when any pattern in the list matches
(the loop returns on the first hit). -/
def _matches_tier (filepath : String) (patterns : List String) : Bool :=
  patterns.any fun pat => matchesPattern filepath pat

/-- Source `_classify_status_line`: parse one `git status --short`
line into `(tier, filepath, status_code)`.  The status code is
`line[:2].strip()`, the path `line[3:].strip()` when the line is
longer than three characters and empty otherwise; when path filtering
is disabled everything is tier 3, otherwise tier 1 patterns are
checked before tier 2 patterns before defaulting to tier 3. -/
def _classify_status_line (cfg : Config) (line : String) : String × String × String :=
  let status_code := pyStrip (pyTake line 2)
  let filepath := if pyLen line > 3 then pyStrip (pyDropFrom line 3) else ""
  if !cfg.git_status_enable_path_filtering then ("tier3", filepath, status_code)
  else if _matches_tier filepath cfg.tier1_patterns then ("tier1", filepath, status_code)
  else if _matches_tier filepath cfg.tier2_patterns then ("tier2", filepath, status_code)
  else ("tier3", filepath, status_code)

/-- Tier component of the classification of one raw line. -/
def tierOf (cfg : Config) (line : String) : String :=
  (_classify_status_line cfg line).1

/-- Filepath component of the classification of one raw line. -/
def filepathOf (cfg : Config) (line : String) : String :=
  (_classify_status_line cfg line).2.1

/-- Status-code component of the classification of one raw line. -/
def statusCodeOf (cfg : Config) (line : String) : String :=
  (_classify_status_line cfg line).2.2

/-- Bucket `tier1_tracked` of the classification loop in
`_gather_git_status`; filtering keeps the loop's stable append order. -/
def tier1_tracked (cfg : Config) (lines : List String) : List String :=
  lines.filter fun l => tierOf cfg l == "tier1" && !(statusCodeOf cfg l == "??")

/-- Bucket `tier1_untracked` of the classification loop. -/
def tier1_untracked (cfg : Config) (lines : List String) : List String :=
  lines.filter fun l => tierOf cfg l == "tier1" && (statusCodeOf cfg l == "??")

/-- Bucket `tier2_lines` of the classification loop (tracked and
untracked together). -/
def tier2_lines (cfg : Config) (lines : List String) : List String :=
  lines.filter fun l => tierOf cfg l == "tier2"

/-- Bucket `tier3_tracked` of the classification loop (the final
`else` of the loop, so neither tier 1 nor tier 2). -/
def tier3_tracked (cfg : Config) (lines : List String) : List String :=
  lines.filter fun l =>
    !(tierOf cfg l == "tier1") && !(tierOf cfg l == "tier2")
      && !(statusCodeOf cfg l == "??")

/-- Bucket `tier3_untracked` of the classification loop. -/
def tier3_untracked (cfg : Config) (lines : List String) : List String :=
  lines.filter fun l =>
    !(tierOf cfg l == "tier1") && !(tierOf cfg l == "tier2")
      && (statusCodeOf cfg l == "??")

/-- Omission summary for the tier-3 tracked bucket. -/
def trackedOmittedMsg (omitted : Nat) : String :=
  "... (" ++ toString omitted ++ " more tracked files omitted)"

/-- Omission summary for the tier-3 untracked bucket. -/
def untrackedOmittedMsg (omitted : Nat) : String :=
  "... (" ++ toString omitted ++ " more untracked files omitted)"

/-- Omission summary for the tier-2 bucket. -/
def supportOmittedMsg (omitted : Nat) : String :=
  "... (" ++ toString omitted ++ " more support files omitted)"

/-- Warning header for tracked files in ignored paths. -/
def warningHeader (n : Nat) : String :=
  "[WARNING: " ++ toString n ++ " tracked files in ignored paths]"

/-- An example entry inside the warning block (two-space indent). -/
def exampleLine (ex : String) : String := "  " ++ ex

/-- The additional-count line of the warning block. -/
def andMoreMsg (n : Nat) : String := "  ... and " ++ toString n ++ " more"

/-- The fixed suggestion line closing the warning block. -/
def suggestionMsg : String := "[Suggestion: These directories should not be tracked]"

/-- The tier-1 untracked count line. -/
def filteredUntrackedMsg (n : Nat) : String :=
  "[Filtered: " ++ toString n ++ " untracked files in ignored paths]"

/-- The hard-backstop truncation notice. -/
def hardLimitMsg (maxLines : Nat) : String :=
  "[Hard limit reached: output truncated to " ++ toString maxLines ++ " lines]"

/-- The clean-working-tree sentence. -/
def cleanMsg : String := "Working directory clean"

/-- The truncation step `_gather_git_status` applies to each tier-3
and tier-2 bucket: everything when within the limit, otherwise the
first `limit` entries plus, when summaries are on, one omitted-count
line computed as `length - limit`. -/
def truncatedBucket (bucket : List String) (limit : Nat) (show_summary : Bool)
    (msg : Nat → String) : List String :=
  if bucket.length ≤ limit then bucket
  else bucket.take limit ++ (if show_summary then [msg (bucket.length - limit)] else [])

/-- The entry sections of the report: tier-3 tracked, then tier-3
untracked (only when untracked inclusion is configured), then tier-2. -/
def bodyLines (cfg : Config) (lines : List String) : List String :=
  truncatedBucket (tier3_tracked cfg lines) cfg.git_status_max_tracked
      cfg.git_status_show_filter_summary trackedOmittedMsg
    ++ (if cfg.git_status_include_untracked then
          truncatedBucket (tier3_untracked cfg lines) cfg.git_status_max_untracked
            cfg.git_status_show_filter_summary untrackedOmittedMsg
        else [])
    ++ truncatedBucket (tier2_lines cfg lines) cfg.git_status_tier2_limit
        cfg.git_status_show_filter_summary supportOmittedMsg

/-- The tier-1 tracked warning block: header carrying the count, up to
three indented example entries, an additional-count line when the
bucket holds more than three, and the fixed suggestion line. -/
def tier1WarningBlock (t1t : List String) : List String :=
  [warningHeader t1t.length]
    ++ (t1t.take 3).map exampleLine
    ++ (if t1t.length > 3 then [andMoreMsg (t1t.length - 3)] else [])
    ++ [suggestionMsg]

/-- The report lines of `_gather_git_status` before the hard backstop:
entry sections, a blank separator when something was already emitted
and summaries are on and tier 1 is non-empty, the tier-1 tracked
warning block, and the tier-1 untracked count line. -/
def preLimitLines (cfg : Config) (lines : List String) : List String :=
  bodyLines cfg lines
    ++ (if !(bodyLines cfg lines).isEmpty && cfg.git_status_show_filter_summary
           && (!(tier1_tracked cfg lines).isEmpty || !(tier1_untracked cfg lines).isEmpty)
        then [""] else [])
    ++ (if cfg.git_status_show_filter_summary && !(tier1_tracked cfg lines).isEmpty
        then tier1WarningBlock (tier1_tracked cfg lines) else [])
    ++ (if cfg.git_status_show_filter_summary && !(tier1_untracked cfg lines).isEmpty
        then [filteredUntrackedMsg (tier1_untracked cfg lines).length] else [])

/-- The hard backstop of `_gather_git_status`: when the accumulated
output exceeds `git_status_max_lines` lines, keep the first
`git_status_max_lines` of them and append the truncation notice. -/
def resultLines (cfg : Config) (lines : List String) : List String :=
  if (preLimitLines cfg lines).length > cfg.git_status_max_lines
  then (preLimitLines cfg lines).take cfg.git_status_max_lines
        ++ [hardLimitMsg cfg.git_status_max_lines]
  else preLimitLines cfg lines

/-- The final return of `_gather_git_status`: the newline-joined
result, or the clean-working-tree sentence when it is empty. -/
def renderedStatus (cfg : Config) (lines : List String) : String :=
  if (resultLines cfg lines).isEmpty then cleanMsg
  else String.intercalate "\n" (resultLines cfg lines)

/-- Python `str.splitlines` restricted to the newline-separated text
git produces. -/
def splitlines (s : String) : List String :=
  (s.data.splitOn '\n').map fun l => ⟨l⟩

/-- Source `_gather_git_status` as a function of the text the git call
returned: `none` models a failed call, and both `none` and the empty
string are falsy in Python, short-circuiting to the clean sentence. -/
def _gather_git_status (cfg : Config) (raw_status : Option String) : String :=
  match raw_status with
  | none => cleanMsg
  | some s => if s == "" then cleanMsg else renderedStatus cfg (splitlines s)

/-- A list is non-empty exactly when `isEmpty` is false. -/
theorem isEmpty_eq_false_iff {α : Type} (l : List α) : l.isEmpty = false ↔ l ≠ [] := by
  cases l <;> simp

/-- Closed form of the per-bucket truncation step: the first `limit`
entries, followed by the omitted-count line exactly when the bucket
overflows and summaries are enabled. -/
theorem truncatedBucket_eq (bucket : List String) (limit : Nat) (s : Bool)
    (msg : Nat → String) :
    truncatedBucket bucket limit s msg =
      bucket.take limit
        ++ (if s = true ∧ limit < bucket.length
            then [msg (bucket.length - limit)] else []) := by
  unfold truncatedBucket
  by_cases h : bucket.length ≤ limit
  · have h2 : ¬(s = true ∧ limit < bucket.length) := fun hc => (Nat.not_lt.mpr h) hc.2
    simp [h, h2, List.take_of_length_le h]
  · have hlt : limit < bucket.length := Nat.not_le.mp h
    cases s <;> simp [h, hlt]

/-- C8: given zero status entries — an empty raw status input — the
builder's output is exactly the clean-working-tree sentence and
nothing else (both through the falsy short-circuit on the raw text
and through the empty-result fallback of the builder). -/
theorem clean_tree_output (cfg : Config) :
    resultLines cfg [] = []
      ∧ renderedStatus cfg [] = cleanMsg
      ∧ _gather_git_status cfg (some "") = cleanMsg
      ∧ _gather_git_status cfg none = cleanMsg := by
  have hpre : preLimitLines cfg [] = [] := by
    simp [preLimitLines, bodyLines, tier3_tracked, tier3_untracked, tier2_lines,
      tier1_tracked, tier1_untracked, truncatedBucket]
  have hres : resultLines cfg [] = [] := by
    simp [resultLines, hpre]
  refine ⟨hres, by simp [renderedStatus, hres], by simp [_gather_git_status], rfl⟩

/-- Configuration exercising the hard backstop: ceiling of one line,
path filtering off so that both entries are plain tier-3 tracked. -/
def backstopConfig : Config :=
  { defaultConfig with
      git_status_max_lines := 1
      git_status_enable_path_filtering := false }

/-- Two tracked entries for the backstop scenario. -/
def backstopLines : List String := ["A  a.txt", "M  b.txt"]

/-- C1 counterexample: with `git_status_max_lines = 1` and two plain
tracked entries the builder emits two lines, so the claimed bound
`line count ≤ maxTotalLines` fails: the backstop first truncates to
the limit and then appends the notice on top of it. -/
theorem hard_backstop_claim_false :
    ¬((resultLines backstopConfig backstopLines).length
        ≤ backstopConfig.git_status_max_lines) := by
  decide

/-- C1 amended: the emitted line count never exceeds
`git_status_max_lines + 1`; whenever the hard backstop truncated —
that is, the accumulated output exceeded the ceiling — the output is
exactly the first `git_status_max_lines` accumulated lines followed
by the truncation notice as the final line. -/
theorem hard_backstop_bound (cfg : Config) (lines : List String) :
    (resultLines cfg lines).length ≤ cfg.git_status_max_lines + 1
      ∧ (cfg.git_status_max_lines < (preLimitLines cfg lines).length →
          resultLines cfg lines
              = (preLimitLines cfg lines).take cfg.git_status_max_lines
                ++ [hardLimitMsg cfg.git_status_max_lines]
            ∧ (resultLines cfg lines).length = cfg.git_status_max_lines + 1
            ∧ (resultLines cfg lines).getLast?
                = some (hardLimitMsg cfg.git_status_max_lines)) := by
  by_cases h : cfg.git_status_max_lines < (preLimitLines cfg lines).length
  · have hres : resultLines cfg lines
        = (preLimitLines cfg lines).take cfg.git_status_max_lines
          ++ [hardLimitMsg cfg.git_status_max_lines] := by
      unfold resultLines
      exact if_pos h
    have hlen : (resultLines cfg lines).length = cfg.git_status_max_lines + 1 := by
      rw [hres, List.length_append, List.length_take]
      simp [Nat.min_eq_left (Nat.le_of_lt h)]
    refine ⟨by omega, fun _ => ⟨hres, hlen, ?_⟩⟩
    rw [hres]
    exact List.getLast?_concat _
  · have hres : resultLines cfg lines = preLimitLines cfg lines := by
      unfold resultLines
      exact if_neg h
    refine ⟨?_, fun hc => absurd hc h⟩
    rw [hres]
    omega

/-- Witness for the amended hard-backstop bound at the concrete
backstop scenario, discharging the truncation hypothesis there. -/
theorem hard_backstop_bound_witness :
    backstopConfig.git_status_max_lines
        < (preLimitLines backstopConfig backstopLines).length
      ∧ (resultLines backstopConfig backstopLines
            = (preLimitLines backstopConfig backstopLines).take
                backstopConfig.git_status_max_lines
              ++ [hardLimitMsg backstopConfig.git_status_max_lines]
          ∧ (resultLines backstopConfig backstopLines).length
              = backstopConfig.git_status_max_lines + 1
          ∧ (resultLines backstopConfig backstopLines).getLast?
              = some (hardLimitMsg backstopConfig.git_status_max_lines)) :=
  ⟨by decide, (hard_backstop_bound backstopConfig backstopLines).2 (by decide)⟩

/-- C2: a pattern ending in `/**` matches iff the path starts, as a
raw string prefix and not at a path-segment boundary, with the
pattern's part before `/**`; in particular `build/out.bin` and also
`buildtools/readme` match `build/**`. -/
theorem dir_pattern_prefix_semantics :
    (∀ filepath pat : String, pyEndsWith pat "/**" = true →
        (matchesPattern filepath pat = true
          ↔ pyStartsWith filepath (pyDropRight pat 3) = true))
      ∧ matchesPattern "build/out.bin" "build/**" = true
      ∧ matchesPattern "buildtools/readme" "build/**" = true := by
  refine ⟨?_, by decide, by decide⟩
  intro filepath pat h
  unfold matchesPattern
  rw [if_pos h]

/-- Witness applying the `/**` prefix rule at a concrete path that
crosses a path-segment boundary. -/
theorem dir_pattern_prefix_semantics_witness :
    pyEndsWith "build/**" "/**" = true
      ∧ (matchesPattern "buildx/foo" "build/**" = true
          ↔ pyStartsWith "buildx/foo" (pyDropRight "build/**" 3) = true) :=
  ⟨by decide, dir_pattern_prefix_semantics.1 "buildx/foo" "build/**" (by decide)⟩

/-- C3: each bucket with limit `L` and actual count `N` contributes
exactly its first `min N L` entries — original lines in stable input
order — plus one omitted-count summary line iff `N > L` and summaries
are enabled; with limit 0 no entries are emitted and the omitted
count passed to the summary is exactly `N`. -/
theorem bucket_limit_respected (cfg : Config) (lines : List String) :
    (truncatedBucket (tier3_tracked cfg lines) cfg.git_status_max_tracked
        cfg.git_status_show_filter_summary trackedOmittedMsg
      = (tier3_tracked cfg lines).take cfg.git_status_max_tracked
          ++ (if cfg.git_status_show_filter_summary = true
                 ∧ cfg.git_status_max_tracked < (tier3_tracked cfg lines).length
              then [trackedOmittedMsg
                      ((tier3_tracked cfg lines).length - cfg.git_status_max_tracked)]
              else []))
    ∧ ((tier3_tracked cfg lines).take cfg.git_status_max_tracked).length
        = min (tier3_tracked cfg lines).length cfg.git_status_max_tracked
    ∧ ((tier3_tracked cfg lines).take cfg.git_status_max_tracked).Sublist lines
    ∧ (truncatedBucket (tier3_untracked cfg lines) cfg.git_status_max_untracked
        cfg.git_status_show_filter_summary untrackedOmittedMsg
      = (tier3_untracked cfg lines).take cfg.git_status_max_untracked
          ++ (if cfg.git_status_show_filter_summary = true
                 ∧ cfg.git_status_max_untracked < (tier3_untracked cfg lines).length
              then [untrackedOmittedMsg
                      ((tier3_untracked cfg lines).length - cfg.git_status_max_untracked)]
              else []))
    ∧ ((tier3_untracked cfg lines).take cfg.git_status_max_untracked).length
        = min (tier3_untracked cfg lines).length cfg.git_status_max_untracked
    ∧ ((tier3_untracked cfg lines).take cfg.git_status_max_untracked).Sublist lines
    ∧ (truncatedBucket (tier2_lines cfg lines) cfg.git_status_tier2_limit
        cfg.git_status_show_filter_summary supportOmittedMsg
      = (tier2_lines cfg lines).take cfg.git_status_tier2_limit
          ++ (if cfg.git_status_show_filter_summary = true
                 ∧ cfg.git_status_tier2_limit < (tier2_lines cfg lines).length
              then [supportOmittedMsg
                      ((tier2_lines cfg lines).length - cfg.git_status_tier2_limit)]
              else []))
    ∧ ((tier2_lines cfg lines).take cfg.git_status_tier2_limit).length
        = min (tier2_lines cfg lines).length cfg.git_status_tier2_limit
    ∧ ((tier2_lines cfg lines).take cfg.git_status_tier2_limit).Sublist lines
    ∧ truncatedBucket (tier3_tracked cfg lines) 0
        cfg.git_status_show_filter_summary trackedOmittedMsg
      = (if cfg.git_status_show_filter_summary = true
            ∧ 0 < (tier3_tracked cfg lines).length
         then [trackedOmittedMsg (tier3_tracked cfg lines).length] else [])
    ∧ truncatedBucket (tier3_untracked cfg lines) 0
        cfg.git_status_show_filter_summary untrackedOmittedMsg
      = (if cfg.git_status_show_filter_summary = true
            ∧ 0 < (tier3_untracked cfg lines).length
         then [untrackedOmittedMsg (tier3_untracked cfg lines).length] else [])
    ∧ truncatedBucket (tier2_lines cfg lines) 0
        cfg.git_status_show_filter_summary supportOmittedMsg
      = (if cfg.git_status_show_filter_summary = true
            ∧ 0 < (tier2_lines cfg lines).length
         then [supportOmittedMsg (tier2_lines cfg lines).length] else []) := by
  refine ⟨truncatedBucket_eq _ _ _ _, ?_, ?_, truncatedBucket_eq _ _ _ _, ?_, ?_,
    truncatedBucket_eq _ _ _ _, ?_, ?_, ?_, ?_, ?_⟩
  · rw [List.length_take]
    exact Nat.min_comm _ _
  · exact (List.take_sublist _ _).trans (List.filter_sublist _)
  · rw [List.length_take]
    exact Nat.min_comm _ _
  · exact (List.take_sublist _ _).trans (List.filter_sublist _)
  · rw [List.length_take]
    exact Nat.min_comm _ _
  · exact (List.take_sublist _ _).trans (List.filter_sublist _)
  · rw [truncatedBucket_eq]
    simp
  · rw [truncatedBucket_eq]
    simp
  · rw [truncatedBucket_eq]
    simp

/-- The filepath component in closed form. -/
theorem filepathOf_eq (cfg : Config) (line : String) :
    filepathOf cfg line
      = (if pyLen line > 3 then pyStrip (pyDropFrom line 3) else "") := by
  simp only [filepathOf, _classify_status_line]
  split_ifs <;> rfl

/-- The status-code component in closed form. -/
theorem statusCodeOf_eq (cfg : Config) (line : String) :
    statusCodeOf cfg line = pyStrip (pyTake line 2) := by
  simp only [statusCodeOf, _classify_status_line]
  split_ifs <;> rfl

/-- C4: with path filtering enabled, classification totally assigns
exactly one of the three tiers, checking the tier-1 patterns before
the tier-2 patterns before defaulting to tier 3; in particular a path
matching both pattern lists is classified tier 1. -/
theorem tier_precedence (cfg : Config) (line : String)
    (h : cfg.git_status_enable_path_filtering = true) :
    (tierOf cfg line = "tier1" ∨ tierOf cfg line = "tier2" ∨ tierOf cfg line = "tier3")
      ∧ (tierOf cfg line = "tier1"
          ↔ _matches_tier (filepathOf cfg line) cfg.tier1_patterns = true)
      ∧ (tierOf cfg line = "tier2"
          ↔ (_matches_tier (filepathOf cfg line) cfg.tier1_patterns = false
              ∧ _matches_tier (filepathOf cfg line) cfg.tier2_patterns = true))
      ∧ (_matches_tier (filepathOf cfg line) cfg.tier1_patterns = true
          → _matches_tier (filepathOf cfg line) cfg.tier2_patterns = true
          → tierOf cfg line = "tier1") := by
  rw [filepathOf_eq]
  simp only [tierOf, _classify_status_line, h, Bool.not_true, Bool.false_eq_true,
    if_false]
  by_cases h1 : _matches_tier (if pyLen line > 3 then pyStrip (pyDropFrom line 3) else "")
      cfg.tier1_patterns = true
  · simp [h1]
  · rw [Bool.not_eq_true] at h1
    by_cases h2 : _matches_tier (if pyLen line > 3 then pyStrip (pyDropFrom line 3) else "")
        cfg.tier2_patterns = true
    · simp [h1, h2]
    · rw [Bool.not_eq_true] at h2
      simp [h1, h2]

/-- Witness for tier precedence at the default configuration and a
tracked entry under `node_modules`. -/
theorem tier_precedence_witness :
    defaultConfig.git_status_enable_path_filtering = true
      ∧ (tierOf defaultConfig "M  node_modules/x.js" = "tier1"
          ↔ _matches_tier (filepathOf defaultConfig "M  node_modules/x.js")
              defaultConfig.tier1_patterns = true) :=
  ⟨rfl, (tier_precedence defaultConfig "M  node_modules/x.js" rfl).2.1⟩

/-- C5: the report sections appear in exactly this order — tier-3
tracked, tier-3 untracked (emitted only when untracked inclusion is
configured, otherwise skipped entirely), tier-2, one blank separator
line iff some output was already emitted and summaries are enabled
and tier 1 (tracked or untracked) is non-empty, the tier-1 tracked
warning block, and the tier-1 untracked count line. -/
theorem report_section_order (cfg : Config) (lines : List String) :
    preLimitLines cfg lines =
      truncatedBucket (tier3_tracked cfg lines) cfg.git_status_max_tracked
          cfg.git_status_show_filter_summary trackedOmittedMsg
        ++ (if cfg.git_status_include_untracked = true then
              truncatedBucket (tier3_untracked cfg lines) cfg.git_status_max_untracked
                cfg.git_status_show_filter_summary untrackedOmittedMsg
            else [])
        ++ truncatedBucket (tier2_lines cfg lines) cfg.git_status_tier2_limit
            cfg.git_status_show_filter_summary supportOmittedMsg
        ++ (if bodyLines cfg lines ≠ [] ∧ cfg.git_status_show_filter_summary = true
               ∧ (tier1_tracked cfg lines ≠ [] ∨ tier1_untracked cfg lines ≠ [])
            then [""] else [])
        ++ (if cfg.git_status_show_filter_summary = true ∧ tier1_tracked cfg lines ≠ []
            then tier1WarningBlock (tier1_tracked cfg lines) else [])
        ++ (if cfg.git_status_show_filter_summary = true ∧ tier1_untracked cfg lines ≠ []
            then [filteredUntrackedMsg (tier1_untracked cfg lines).length] else []) := by
  have hsep : ((!(bodyLines cfg lines).isEmpty && cfg.git_status_show_filter_summary
      && (!(tier1_tracked cfg lines).isEmpty || !(tier1_untracked cfg lines).isEmpty))
        = true)
      ↔ (bodyLines cfg lines ≠ [] ∧ cfg.git_status_show_filter_summary = true
          ∧ (tier1_tracked cfg lines ≠ [] ∨ tier1_untracked cfg lines ≠ [])) := by
    simp [Bool.and_eq_true, Bool.or_eq_true, Bool.not_eq_true', isEmpty_eq_false_iff,
      and_assoc]
  have hw : ((cfg.git_status_show_filter_summary
      && !(tier1_tracked cfg lines).isEmpty) = true)
      ↔ (cfg.git_status_show_filter_summary = true ∧ tier1_tracked cfg lines ≠ []) := by
    simp [Bool.and_eq_true, Bool.not_eq_true', isEmpty_eq_false_iff]
  have hu : ((cfg.git_status_show_filter_summary
      && !(tier1_untracked cfg lines).isEmpty) = true)
      ↔ (cfg.git_status_show_filter_summary = true ∧ tier1_untracked cfg lines ≠ []) := by
    simp [Bool.and_eq_true, Bool.not_eq_true', isEmpty_eq_false_iff]
  unfold preLimitLines
  rw [if_congr hsep rfl rfl, if_congr hw rfl rfl, if_congr hu rfl rfl]
  rfl

/-- C6: whenever summaries are enabled and the tier-1 tracked bucket
is non-empty, the report contains the warning block — header carrying
the bucket count, then up to three example entries reproduced after a
two-space indent, then (exactly when the bucket holds more than
three) one additional-count line, then the fixed suggestion line
recommending these paths not be tracked. -/
theorem warning_block_shape (cfg : Config) (lines : List String)
    (hshow : cfg.git_status_show_filter_summary = true)
    (hne : tier1_tracked cfg lines ≠ []) :
    (∃ pre post : List String,
        preLimitLines cfg lines
          = pre ++ tier1WarningBlock (tier1_tracked cfg lines) ++ post)
      ∧ tier1WarningBlock (tier1_tracked cfg lines)
          = warningHeader (tier1_tracked cfg lines).length
              :: (((tier1_tracked cfg lines).take 3).map exampleLine
                ++ (if 3 < (tier1_tracked cfg lines).length
                    then [andMoreMsg ((tier1_tracked cfg lines).length - 3)] else [])
                ++ [suggestionMsg]) := by
  constructor
  · have hcond : (cfg.git_status_show_filter_summary
        && !(tier1_tracked cfg lines).isEmpty) = true := by
      rw [hshow, (isEmpty_eq_false_iff _).mpr hne]
      rfl
    refine ⟨bodyLines cfg lines
        ++ (if !(bodyLines cfg lines).isEmpty && cfg.git_status_show_filter_summary
               && (!(tier1_tracked cfg lines).isEmpty
                  || !(tier1_untracked cfg lines).isEmpty)
            then [""] else []),
      (if cfg.git_status_show_filter_summary && !(tier1_untracked cfg lines).isEmpty
       then [filteredUntrackedMsg (tier1_untracked cfg lines).length] else []), ?_⟩
    unfold preLimitLines
    rw [if_pos hcond]
  · rfl

/-- Witness for the warning block at the spec's scenario B: one
tracked entry under `node_modules` at the default configuration. -/
theorem warning_block_shape_witness :
    defaultConfig.git_status_show_filter_summary = true
      ∧ tier1_tracked defaultConfig ["M  node_modules/x.js"] = ["M  node_modules/x.js"]
      ∧ tier1WarningBlock (tier1_tracked defaultConfig ["M  node_modules/x.js"])
          = ["[WARNING: 1 tracked files in ignored paths]",
             "  M  node_modules/x.js",
             "[Suggestion: These directories should not be tracked]"]
      ∧ (∃ pre post : List String,
          preLimitLines defaultConfig ["M  node_modules/x.js"]
            = pre ++ tier1WarningBlock (tier1_tracked defaultConfig ["M  node_modules/x.js"])
              ++ post) :=
  ⟨rfl, by decide, by decide,
    (warning_block_shape defaultConfig ["M  node_modules/x.js"] rfl (by decide)).1⟩

/-- The stripped text is a sublist of the original character list. -/
theorem pyStrip_data_sublist (t : String) : (pyStrip t).data.Sublist t.data := by
  have h1 : (t.data.dropWhile isPySpace).Sublist t.data :=
    @List.dropWhile_sublist _ t.data isPySpace
  have h2 := (@List.dropWhile_sublist _ (t.data.dropWhile isPySpace).reverse
    isPySpace).reverse
  rw [List.reverse_reverse] at h2
  exact h2.trans h1

/-- A string of at most two characters strips to `??` only when it
already is `??`. -/
theorem pyStrip_eq_qq (t : String) (hlen : t.data.length ≤ 2)
    (h : pyStrip t = "??") : t = "??" := by
  have hsub := pyStrip_data_sublist t
  rw [h] at hsub
  have hq : ("??" : String).data.length = 2 := by decide
  have hle := hsub.length_le
  have heq : ("??" : String).data = t.data := hsub.eq_of_length (by omega)
  exact String.ext heq.symm

/-- C7: classification is total on every raw line, malformed or not:
the status code is the stripped first two characters, the path is the
stripped text from index 3 on (empty for lines shorter than four
characters), and the untracked test `status_code = "??"` holds
exactly when the raw first two characters are `??`. -/
theorem classify_total_parse (cfg : Config) (line : String) :
    statusCodeOf cfg line = pyStrip (pyTake line 2)
      ∧ filepathOf cfg line
          = (if pyLen line > 3 then pyStrip (pyDropFrom line 3) else "")
      ∧ (pyLen line < 4 → filepathOf cfg line = "")
      ∧ (statusCodeOf cfg line = "??" ↔ pyTake line 2 = "??") := by
  refine ⟨statusCodeOf_eq cfg line, filepathOf_eq cfg line, ?_, ?_, ?_⟩
  · intro hshort
    rw [filepathOf_eq]
    have : ¬(pyLen line > 3) := by omega
    rw [if_neg this]
  · intro h
    rw [statusCodeOf_eq] at h
    refine pyStrip_eq_qq (pyTake line 2) ?_ h
    exact List.length_take_le 2 line.data
  · intro h
    rw [statusCodeOf_eq, h]
    decide

/-- Witness for total parsing at the malformed one-character line. -/
theorem classify_total_parse_witness :
    pyLen "M" < 4 ∧ filepathOf defaultConfig "M" = "" :=
  ⟨by decide, (classify_total_parse defaultConfig "M").2.2.1 (by decide)⟩

/-- C9: the clean-working-tree sentence is not exclusive to an empty
input — on any non-empty input whose entries are all tier 1, with the
filter summary disabled the builder returns exactly the clean
sentence although the working tree is not clean. -/
theorem clean_sentence_not_exclusive (cfg : Config) (lines : List String)
    (hshow : cfg.git_status_show_filter_summary = false)
    (hne : lines ≠ [])
    (htier : ∀ l ∈ lines, tierOf cfg l = "tier1") :
    renderedStatus cfg lines = cleanMsg := by
  have h3t : tier3_tracked cfg lines = [] := by
    rw [tier3_tracked, List.filter_eq_nil_iff]
    intro a ha
    simp [htier a ha]
  have h3u : tier3_untracked cfg lines = [] := by
    rw [tier3_untracked, List.filter_eq_nil_iff]
    intro a ha
    simp [htier a ha]
  have h2l : tier2_lines cfg lines = [] := by
    rw [tier2_lines, List.filter_eq_nil_iff]
    intro a ha
    simp [htier a ha]
  have hbody : bodyLines cfg lines = [] := by
    simp [bodyLines, h3t, h3u, h2l, truncatedBucket]
  have hpre : preLimitLines cfg lines = [] := by
    simp [preLimitLines, hbody, hshow]
  simp [renderedStatus, resultLines, hpre]

/-- Configuration for the witness of the non-exclusive clean
sentence: defaults with the filter summary turned off. -/
def noSummaryConfig : Config :=
  { defaultConfig with git_status_show_filter_summary := false }

/-- Witness: one tracked tier-1 entry, summaries off — the builder
reports a clean tree on a dirty one. -/
theorem clean_sentence_not_exclusive_witness :
    noSummaryConfig.git_status_show_filter_summary = false
      ∧ (["M  node_modules/x.js"] : List String) ≠ []
      ∧ (∀ l ∈ (["M  node_modules/x.js"] : List String),
          tierOf noSummaryConfig l = "tier1")
      ∧ renderedStatus noSummaryConfig ["M  node_modules/x.js"] = cleanMsg :=
  ⟨rfl, by decide, by decide,
    clean_sentence_not_exclusive noSummaryConfig ["M  node_modules/x.js"] rfl
      (by decide) (by decide)⟩

/-- Counting bound for three mutually exclusive filters of one list:
together they can only repeat what the list holds. -/
theorem count_filter_three_le {α : Type} [BEq α]
    (p q r : α → Bool)
    (hpq : ∀ a, p a = true → q a = false)
    (hpr : ∀ a, p a = true → r a = false)
    (hqr : ∀ a, q a = true → r a = false)
    (l : List α) (s : α) :
    (l.filter p).count s + (l.filter q).count s + (l.filter r).count s
      ≤ l.count s := by
  induction l with
  | nil => simp
  | cons a t ih =>
    have step : ∀ f : α → Bool, (List.filter f (a :: t)).count s
        = (List.filter f t).count s
          + (if f a = true then (if (a == s) = true then 1 else 0) else 0) := by
      intro f
      by_cases hf : f a = true
      · simp [List.filter_cons, hf, List.count_cons]
      · simp [List.filter_cons, hf]
    rw [step p, step q, step r, List.count_cons]
    set d := (if (a == s) = true then (1 : Nat) else 0)
    by_cases hp : p a = true
    · have hq0 : ¬(q a = true) := by rw [hpq a hp]; exact Bool.false_ne_true
      have hr0 : ¬(r a = true) := by rw [hpr a hp]; exact Bool.false_ne_true
      rw [if_pos hp, if_neg hq0, if_neg hr0]
      omega
    · by_cases hq : q a = true
      · have hr0 : ¬(r a = true) := by rw [hqr a hq]; exact Bool.false_ne_true
        rw [if_neg hp, if_pos hq, if_neg hr0]
        omega
      · by_cases hr : r a = true
        · rw [if_neg hp, if_neg hq, if_pos hr]
          omega
        · rw [if_neg hp, if_neg hq, if_neg hr]
          omega

/-- C10: every tier-3 or tier-2 entry line shown is an input raw line
verbatim, entries of one bucket keep their relative input order, no
input occurrence is shown more than once across the three entry
sections, and the body consists of exactly these entry sections in
bucket order, each followed by at most one summary line. -/
theorem entry_lines_faithful (cfg : Config) (lines : List String) :
    ((tier3_tracked cfg lines).take cfg.git_status_max_tracked).Sublist lines
      ∧ ((tier3_untracked cfg lines).take cfg.git_status_max_untracked).Sublist lines
      ∧ ((tier2_lines cfg lines).take cfg.git_status_tier2_limit).Sublist lines
      ∧ (∀ s : String,
          ((tier3_tracked cfg lines).take cfg.git_status_max_tracked).count s
              + ((if cfg.git_status_include_untracked = true then
                    (tier3_untracked cfg lines).take cfg.git_status_max_untracked
                  else []).count s)
              + ((tier2_lines cfg lines).take cfg.git_status_tier2_limit).count s
            ≤ lines.count s)
      ∧ (∃ s1 s2 s3 : List String, s1.length ≤ 1 ∧ s2.length ≤ 1 ∧ s3.length ≤ 1
          ∧ bodyLines cfg lines =
              ((tier3_tracked cfg lines).take cfg.git_status_max_tracked ++ s1)
                ++ ((if cfg.git_status_include_untracked = true then
                      (tier3_untracked cfg lines).take cfg.git_status_max_untracked
                    else []) ++ s2)
                ++ ((tier2_lines cfg lines).take cfg.git_status_tier2_limit ++ s3)) := by
  have hsub1 : ((tier3_tracked cfg lines).take cfg.git_status_max_tracked).Sublist lines :=
    (List.take_sublist _ _).trans (List.filter_sublist _)
  have hsub2 : ((tier3_untracked cfg lines).take cfg.git_status_max_untracked).Sublist lines :=
    (List.take_sublist _ _).trans (List.filter_sublist _)
  have hsub3 : ((tier2_lines cfg lines).take cfg.git_status_tier2_limit).Sublist lines :=
    (List.take_sublist _ _).trans (List.filter_sublist _)
  refine ⟨hsub1, hsub2, hsub3, ?_, ?_⟩
  · intro s
    have hf : (tier3_tracked cfg lines).count s + (tier3_untracked cfg lines).count s
        + (tier2_lines cfg lines).count s ≤ lines.count s := by
      refine count_filter_three_le
        (fun l => !(tierOf cfg l == "tier1") && !(tierOf cfg l == "tier2")
          && !(statusCodeOf cfg l == "??"))
        (fun l => !(tierOf cfg l == "tier1") && !(tierOf cfg l == "tier2")
          && (statusCodeOf cfg l == "??"))
        (fun l => tierOf cfg l == "tier2")
        ?_ ?_ ?_ lines s
      · intro a
        cases h1 : tierOf cfg a == "tier1" <;> cases h2 : tierOf cfg a == "tier2" <;>
          cases h3 : statusCodeOf cfg a == "??" <;> simp [h1, h2, h3]
      · intro a
        cases h1 : tierOf cfg a == "tier1" <;> cases h2 : tierOf cfg a == "tier2" <;>
          cases h3 : statusCodeOf cfg a == "??" <;> simp [h1, h2, h3]
      · intro a
        cases h1 : tierOf cfg a == "tier1" <;> cases h2 : tierOf cfg a == "tier2" <;>
          cases h3 : statusCodeOf cfg a == "??" <;> simp [h1, h2, h3]
    have h1 : ((tier3_tracked cfg lines).take cfg.git_status_max_tracked).count s
        ≤ (tier3_tracked cfg lines).count s := (List.take_sublist _ _).count_le s
    have h2 : ((if cfg.git_status_include_untracked = true then
          (tier3_untracked cfg lines).take cfg.git_status_max_untracked
        else []).count s) ≤ (tier3_untracked cfg lines).count s := by
      split
      · exact (List.take_sublist _ _).count_le s
      · simp
    have h3 : ((tier2_lines cfg lines).take cfg.git_status_tier2_limit).count s
        ≤ (tier2_lines cfg lines).count s := (List.take_sublist _ _).count_le s
    omega
  · refine ⟨(if cfg.git_status_show_filter_summary = true
        ∧ cfg.git_status_max_tracked < (tier3_tracked cfg lines).length
        then [trackedOmittedMsg
                ((tier3_tracked cfg lines).length - cfg.git_status_max_tracked)]
        else []),
      (if cfg.git_status_include_untracked = true then
        (if cfg.git_status_show_filter_summary = true
            ∧ cfg.git_status_max_untracked < (tier3_untracked cfg lines).length
         then [untrackedOmittedMsg
                ((tier3_untracked cfg lines).length - cfg.git_status_max_untracked)]
         else [])
       else []),
      (if cfg.git_status_show_filter_summary = true
        ∧ cfg.git_status_tier2_limit < (tier2_lines cfg lines).length
        then [supportOmittedMsg
                ((tier2_lines cfg lines).length - cfg.git_status_tier2_limit)]
        else []), ?_, ?_, ?_, ?_⟩
    · split <;> simp
    · split
      · split <;> simp
      · simp
    · split <;> simp
    · unfold bodyLines
      rw [truncatedBucket_eq, truncatedBucket_eq, truncatedBucket_eq]
      by_cases hi : cfg.git_status_include_untracked = true
      all_goals simp [hi, List.append_assoc]
